import Mathlib

set_option linter.unusedVariables false

/-!
Shallow embedding of src/src/wshelper.ts (the Veins class) from the
ouroboroscoding/veins-js repository.

State of a Veins instance is the record of its mutable fields.  Event
handlers and public methods are embedded as pure functions from the state
to a new state together with a list of observable effects (frames sent on
the socket, timers created and cleared, error-sink invocations, callback
invocations).  The asynchronous pieces (the auth promise, the host
JSON.parse) are passed in as explicit parameters, as is standard for a
shallow embedding of host collaborators.
-/

namespace VeinsSpec

/-- A small model of JSON values, used for the arbitrary `data` payload of
inbound messages. -/
inductive JVal where
  | null : JVal
  | bool (b : Bool) : JVal
  | num (n : Int) : JVal
  | str (s : String) : JVal
deriving DecidableEq, Repr

/-- The outbound control frames of the wire protocol, as built by the
source: `{_type:"connect",key}`, `{_type:"track",key}`,
`{_type:"untrack",key}`, `{_type:"ping"}`. -/
inductive Frame where
  | connect (key : String) : Frame
  | track (key : String) : Frame
  | untrack (key : String) : Frame
  | ping : Frame
deriving DecidableEq, Repr

/-- What one `socket.send(JSON.stringify(x))` call carries: either a single
frame object or an array of frames (the batched open payload). -/
inductive Payload where
  | single (f : Frame) : Payload
  | batch (fs : List Frame) : Payload
deriving DecidableEq, Repr

/-- Observable effects of running one handler or method.  Callbacks are
identified by opaque numeric ids; `invoke cb d` records that callback `cb`
was called with `msg.data` (`none` models the JS `undefined`). -/
inductive Effect where
  | send (p : Payload) : Effect
  | reopenTimeout (delayMs : Nat) : Effect
  | startPing (id intervalMs : Nat) : Effect
  | clearPing (id : Nat) : Effect
  | closeSock (code : Nat) (reason : String) : Effect
  | reportError (msg : String) : Effect
  | invoke (cb : Nat) (d : Option JVal) : Effect
  | triggerOpen : Effect
deriving DecidableEq, Repr

/-- True of a reconnect-scheduling effect (the `setTimeout` in the abnormal
branch of `_sockClose`). -/
def Effect.isReopen : Effect → Bool
  | .reopenTimeout _ => true
  | _ => false

/-- True of a keepalive-interval-creation effect (the `setInterval` in
`_open`). -/
def Effect.isStartPing : Effect → Bool
  | .startPing _ _ => true
  | _ => false

/-- True of an error-sink invocation. -/
def Effect.isReport : Effect → Bool
  | .reportError _ => true
  | _ => false

/-- True of a frame send. -/
def Effect.isSend : Effect → Bool
  | .send _ => true
  | _ => false

/-- True of a subscriber-callback invocation. -/
def Effect.isInvoke : Effect → Bool
  | .invoke _ _ => true
  | _ => false

/-- The `socket` field of the source, of TS type `WebSocket | null | false`:
`nullS` is `null`, `falseS` is `false`, `sock rs` is a WebSocket handle whose
`readyState` is `rs` (1 = OPEN). -/
inductive SocketField where
  | nullS : SocketField
  | falseS : SocketField
  | sock (readyState : Nat) : SocketField
deriving DecidableEq, Repr

/-- JS truthiness of the `socket` field: `null` and `false` are falsy, a
WebSocket object is truthy. -/
def SocketField.truthy : SocketField → Bool
  | .nullS => false
  | .falseS => false
  | .sock _ => true

/-- The guard `this.socket && this.socket.readyState === 1`. -/
def SocketField.isOpen : SocketField → Bool
  | .sock rs => rs == 1
  | _ => false

/-- The inbound structured message, `MessageStruct` of the source.  The
`error` field holds `(code, msg)` when present; `data` is `none` when the
field is absent (JS `undefined`). -/
structure MessageStruct where
  data : Option JVal := none
  error : Option (Int × String) := none
  key : String
deriving DecidableEq, Repr

/-- The mutable fields of a `Veins` instance.  `keys` embeds the JS record
`Record<string, messageCallback[]>` as an insertion-ordered association
list with unique keys (JS objects preserve insertion order for string
keys, which is the order `Object.keys` enumerates).  `hasError` records
whether the optional `error` callback was supplied at construction. -/
structure Veins where
  close : Bool := true
  hasError : Bool := true
  keys : List (String × List Nat) := []
  ping : Nat := 0
  socket : SocketField := .nullS
deriving DecidableEq, Repr

/-- `key in this.keys` / `this.keys[key]`: lookup in the record. -/
def recLookup : List (String × List Nat) → String → Option (List Nat)
  | [], _ => none
  | kv :: rest, k => if kv.1 = k then some kv.2 else recLookup rest k

/-- `this.keys[key] = v` for a key already present: replace its value in
place (keys are unique, so mapping over all entries updates exactly the
matching one and keeps insertion order). -/
def recSet (m : List (String × List Nat)) (k : String) (v : List Nat) :
    List (String × List Nat) :=
  m.map (fun kv => if kv.1 = k then (k, v) else kv)

/-- `delete this.keys[key]`: drop the entry. -/
def recDelete (m : List (String × List Nat)) (k : String) :
    List (String × List Nat) :=
  m.filter (fun kv => kv.1 ≠ k)

/-- The `splice(i, 1)` at the first index whose element equals the callback,
as done by the identity-comparison loop in `unsubscribe`. -/
def removeFirst : List Nat → Nat → List Nat
  | [], _ => []
  | x :: xs, cb => if x = cb then xs else x :: removeFirst xs cb

/-- `Veins._sockOpen(auth, sock)`: builds the message list with one
`connect` message carrying the auth token followed by one `track` message
per key of `this.keys` in `Object.keys` order, and performs a single
`sock.send` of the JSON-stringified array. -/
def Veins.sockOpen (auth : String) (st : Veins) : List Effect :=
  [.send (.batch (.connect auth :: st.keys.map (fun kv => .track kv.1)))]

/-- `Veins._sockClose()`: clears the ping interval if one is recorded
(note: the source does not reset `this.ping` to 0 here); on a valid close
(`this.close` true) nulls the socket; otherwise sets `this.close` to true
and schedules `this._open()` after 5000 ms. -/
def Veins.sockClose (st : Veins) : Veins × List Effect :=
  let effs := if st.ping ≠ 0 then [Effect.clearPing st.ping] else []
  if st.close then
    ({ st with socket := .nullS }, effs)
  else
    ({ st with close := true }, effs ++ [Effect.reopenTimeout 5000])

/-- The continuation of `Veins._open()` that runs when the auth promise
resolves with token `auth`: create the socket through WSHelper
(`wsSupported` is whether the environment has WebSockets; a fresh socket
starts in readyState 0), report through the error sink if the factory
returned `false`, and start the 300000 ms ping interval only when
`this.ping === 0` (`freshId` is the nonzero interval id `setInterval`
would return). -/
def Veins.openResolve (st : Veins) (auth : String) (wsSupported : Bool)
    (freshId : Nat) : Veins × List Effect :=
  if wsSupported then
    let st1 := { st with socket := SocketField.sock 0 }
    if st1.ping = 0 then
      ({ st1 with ping := freshId }, [Effect.startPing freshId 300000])
    else
      (st1, [])
  else
    ({ st with socket := SocketField.falseS },
      if st.hasError then [Effect.reportError "Websockets not supported"] else [])

/-- `Veins._open()` as a whole, given the outcome of the auth promise.
The source attaches only a `.then` continuation and no rejection handler,
so when the promise rejects nothing in this code runs: the state is
untouched and no effect happens (the rejection escapes as an unhandled
promise rejection). -/
def Veins.openWith (st : Veins) (authResult : Except Unit String)
    (wsSupported : Bool) (freshId : Nat) : Veins × List Effect :=
  match authResult with
  | .error _ => (st, [])
  | .ok auth => st.openResolve auth wsSupported freshId

/-- The inner `handleMsg` of `Veins._sockMessage`: if `msg.error` is
present, report `Websocket failed: <msg> (<code>)` through the error sink
when one was supplied and return; otherwise, if `msg.key` is in
`this.keys`, call each of its callbacks in order with `msg.data`. -/
def Veins.handleMsg (st : Veins) (msg : MessageStruct) : List Effect :=
  match msg.error with
  | some ce =>
    if st.hasError then
      [Effect.reportError
        ("Websocket failed: " ++ ce.2 ++ " (" ++ toString ce.1 ++ ")")]
    else []
  | none =>
    match recLookup st.keys msg.key with
    | some cbs => cbs.map (fun f => Effect.invoke f msg.data)
    | none => []

/-- `Veins._sockMessage` on a text frame `data`.  `parsed` is the outcome
of the host call `JSON.parse(data)` reached in the fallthrough case:
`some msg` when the text parses, `none` when `JSON.parse` throws.  The
source wraps that call in no try/catch, so a parse failure is an exception
escaping the handler, modelled as `Except.error ()`. -/
def Veins.sockMessageText (st : Veins) (data : String)
    (parsed : Option MessageStruct) : Veins × Except Unit (List Effect) :=
  if data = "authorized" then
    ({ st with close := false }, .ok [])
  else if data = "pong" then
    (st, .ok [])
  else
    match parsed with
    | some msg => (st, .ok (st.handleMsg msg))
    | none => (st, .error ())

/-- `Veins.subscribe(key, callback)`: record the callback under the key
(creating the entry or appending), then if the socket is `null` set it to
`false` and trigger `_open`; if it is a socket in readyState 1 send a
`track` frame; otherwise do nothing. -/
def Veins.subscribe (st : Veins) (key : String) (cb : Nat) :
    Veins × List Effect :=
  let keys1 :=
    match recLookup st.keys key with
    | none => st.keys ++ [(key, [cb])]
    | some l => recSet st.keys key (l ++ [cb])
  let st1 := { st with keys := keys1 }
  match st1.socket with
  | .nullS => ({ st1 with socket := .falseS }, [Effect.triggerOpen])
  | .falseS => (st1, [])
  | .sock rs =>
    if rs = 1 then (st1, [Effect.send (.single (.track key))])
    else (st1, [])

/-- `Veins.unsubscribe(key, callback)`: locate the callback by identity in
the list for the key; if absent return false.  If found, splice it out; if
the list became empty, send `untrack` when the socket is open, delete the
key, and if the record is now empty clear the ping interval (resetting
`this.ping` to 0 this time), set `this.close` to true and close the socket
with code 1000 and reason `nothing else to track`; return true. -/
def Veins.unsubscribe (st : Veins) (key : String) (cb : Nat) :
    Veins × List Effect × Bool :=
  match recLookup st.keys key with
  | none => (st, [], false)
  | some l =>
    if cb ∈ l then
      let l1 := removeFirst l cb
      if l1 = [] then
        let effUntrack :=
          if st.socket.isOpen then [Effect.send (.single (.untrack key))]
          else []
        let keys1 := recDelete st.keys key
        if keys1 = [] then
          let effPing :=
            if st.ping ≠ 0 then [Effect.clearPing st.ping] else []
          let effClose :=
            if st.socket.truthy then
              [Effect.closeSock 1000 "nothing else to track"]
            else []
          ({ st with keys := keys1, ping := 0, close := true },
            effUntrack ++ effPing ++ effClose, true)
        else
          ({ st with keys := keys1 }, effUntrack, true)
      else
        ({ st with keys := recSet st.keys key l1 }, [], true)
    else
      (st, [], false)

/-- The state of a freshly constructed `Veins` instance (with an error
callback supplied): `close` true, empty key record, no ping interval,
`socket` null. -/
def initVeins : Veins := {}

/-- A concrete reachable state: one key `k` with one callback, socket open
(readyState 1), handshake done (`close` false), ping interval id 7. -/
def stOpenK : Veins :=
  { close := false, hasError := true, keys := [("k", [0])], ping := 7,
    socket := .sock 1 }

/-- A concrete reachable state with two keys, `k` carrying two callbacks in
registration order. -/
def stOpenKK : Veins :=
  { close := false, hasError := true, keys := [("k", [0, 1]), ("j", [2])],
    ping := 7, socket := .sock 1 }

/-- Claim C1: from any state with CloseIntent false and at least one
registered key, the transport close event schedules exactly one reconnect,
with the fixed 5000 ms delay; and the open event of the reopened socket
performs exactly one send, of the array-wrapped batch holding one connect
message with the fresh auth token followed by one track message per key
registered at that moment. -/
theorem claim1_reconnect_and_batched_open (st st2 : Veins) (auth : String)
    (hclose : st.close = false) (hkeys : st.keys ≠ []) :
    (st.sockClose).2.filter Effect.isReopen = [Effect.reopenTimeout 5000]
    ∧ st2.sockOpen auth
        = [Effect.send (.batch
            (.connect auth :: st2.keys.map (fun kv => Frame.track kv.1)))] := by
  constructor
  · by_cases hp : st.ping = 0 <;>
      simp [Veins.sockClose, hclose, hp, Effect.isReopen]
  · rfl

/-- Witness for C1 at the concrete state `stOpenK`. -/
theorem claim1_witness :
    stOpenK.close = false ∧ stOpenK.keys ≠ [] ∧
    ((stOpenK.sockClose).2.filter Effect.isReopen = [Effect.reopenTimeout 5000]
     ∧ stOpenK.sockOpen "tok"
        = [Effect.send (.batch
            (.connect "tok" :: stOpenK.keys.map (fun kv => Frame.track kv.1)))]) :=
  ⟨rfl, by decide,
    claim1_reconnect_and_batched_open stOpenK stOpenK "tok" rfl (by decide)⟩

/-- Claim C2 counterexample: in `stOpenK` the key `k` already has a
registered callback and the socket is open, yet subscribing a second
callback to `k` sends another track frame, refuting the claim that no new
frame is sent for an existing key. -/
theorem claim2_counterexample :
    Effect.send (.single (.track "k")) ∈ (stOpenK.subscribe "k" 1).2 := by
  decide

/-- Claim C2 amended: while the socket is open, subscribe appends the
callback for an existing key but still sends a track frame on every call,
whether or not the key was already registered. -/
theorem claim2_track_resent_for_existing_key (st : Veins) (key : String)
    (cb : Nat) (l : List Nat) (hk : recLookup st.keys key = some l)
    (hs : st.socket = .sock 1) :
    st.subscribe key cb
      = ({ st with keys := recSet st.keys key (l ++ [cb]) },
         [Effect.send (.single (.track key))]) := by
  simp [Veins.subscribe, hk, hs]

/-- Witness for the amended C2 at the concrete state `stOpenK`. -/
theorem claim2_witness :
    recLookup stOpenK.keys "k" = some [0] ∧ stOpenK.socket = .sock 1 ∧
    stOpenK.subscribe "k" 1
      = ({ stOpenK with keys := recSet stOpenK.keys "k" ([0] ++ [1]) },
         [Effect.send (.single (.track "k"))]) :=
  ⟨by decide, rfl,
    claim2_track_resent_for_existing_key stOpenK "k" 1 [0] (by decide) rfl⟩

/-- Claim C5 counterexample: for the inbound message
`{key:"k", error:{code:403, msg:"nope"}}` the error sink receives the
single string `Websocket failed: nope (403)`, not the string `nope (403)`
that the claim states. -/
theorem claim5_counterexample :
    stOpenK.handleMsg { key := "k", error := some (403, "nope") }
        = [Effect.reportError "Websocket failed: nope (403)"]
    ∧ Effect.reportError "nope (403)"
        ∉ stOpenK.handleMsg { key := "k", error := some (403, "nope") } := by
  constructor
  · rfl
  · decide

/-- Claim C5 amended: for every inbound structured message whose error
field is present, the error sink is invoked exactly once, with the string
`Websocket failed: <msg> (<code>)`, and no callback registered for the
message key is invoked. -/
theorem claim5_error_reported_once_with_prefix (st : Veins) (code : Int)
    (m : String) (d : Option JVal) (key : String) (he : st.hasError = true) :
    st.handleMsg { data := d, error := some (code, m), key := key }
      = [Effect.reportError
          ("Websocket failed: " ++ m ++ " (" ++ toString code ++ ")")] := by
  simp [Veins.handleMsg, he]

/-- Witness for the amended C5 at the concrete state `stOpenK`. -/
theorem claim5_witness :
    stOpenK.hasError = true ∧
    stOpenK.handleMsg { data := none, error := some (403, "nope"), key := "k" }
      = [Effect.reportError
          ("Websocket failed: " ++ "nope" ++ " (" ++ toString (403 : Int) ++ ")")] :=
  ⟨rfl, claim5_error_reported_once_with_prefix stOpenK 403 "nope" none "k" rfl⟩

/-- Claim C8: for an inbound structured message without an error field,
when the key is registered every callback for it is invoked in
registration order, each with the message data field, and when the key is
unknown nothing at all happens (no callback, no error, no exception: the
handler is total and returns no effect). -/
theorem claim8_dispatch_in_order (st : Veins) (key : String) (d : Option JVal) :
    (∀ cbs, recLookup st.keys key = some cbs →
      st.handleMsg { data := d, error := none, key := key }
        = cbs.map (fun f => Effect.invoke f d))
    ∧ (recLookup st.keys key = none →
      st.handleMsg { data := d, error := none, key := key } = []) := by
  constructor
  · intro cbs h
    simp [Veins.handleMsg, h]
  · intro h
    simp [Veins.handleMsg, h]

/-- Witness for C8 at the concrete state `stOpenKK`: key `k` has callbacks
0 and 1 in registration order, key `unknown` is absent. -/
theorem claim8_witness :
    recLookup stOpenKK.keys "k" = some [0, 1]
    ∧ stOpenKK.handleMsg { data := some (.num 1), error := none, key := "k" }
        = [Effect.invoke 0 (some (.num 1)), Effect.invoke 1 (some (.num 1))]
    ∧ recLookup stOpenKK.keys "unknown" = none
    ∧ stOpenKK.handleMsg { data := some (.num 1), error := none, key := "unknown" }
        = [] :=
  ⟨by decide,
   by simpa using
     (claim8_dispatch_in_order stOpenKK "k" (some (.num 1))).1 [0, 1] (by decide),
   by decide,
   (claim8_dispatch_in_order stOpenKK "unknown" (some (.num 1))).2 (by decide)⟩

/-- Claim C6: removing the last callback of the last registered key while
the socket is open sends the untrack frame, deletes the key, clears the
ping interval, sets CloseIntent and closes the socket with code 1000 and
the reason `nothing else to track`; the ensuing transport close event then
nulls the socket and emits no effect at all, in particular no reconnect
timeout. -/
theorem claim6_last_key_teardown (st : Veins) (key : String) (cb : Nat)
    (hk : st.keys = [(key, [cb])]) (hs : st.socket = .sock 1) :
    st.unsubscribe key cb
      = ({ st with keys := [], ping := 0, close := true },
         [Effect.send (.single (.untrack key))]
           ++ (if st.ping ≠ 0 then [Effect.clearPing st.ping] else [])
           ++ [Effect.closeSock 1000 "nothing else to track"], true)
    ∧ (st.unsubscribe key cb).1.sockClose
        = ({ (st.unsubscribe key cb).1 with socket := .nullS }, []) := by
  have h1 : st.unsubscribe key cb
      = ({ st with keys := [], ping := 0, close := true },
         [Effect.send (.single (.untrack key))]
           ++ (if st.ping ≠ 0 then [Effect.clearPing st.ping] else [])
           ++ [Effect.closeSock 1000 "nothing else to track"], true) := by
    simp [Veins.unsubscribe, hk, hs, recLookup, removeFirst, recDelete,
      SocketField.isOpen, SocketField.truthy]
  refine ⟨h1, ?_⟩
  rw [h1]
  simp [Veins.sockClose]

/-- Witness for C6 at the concrete state `stOpenK`. -/
theorem claim6_witness :
    stOpenK.keys = [("k", [0])] ∧ stOpenK.socket = .sock 1 ∧
    (stOpenK.unsubscribe "k" 0
      = ({ stOpenK with keys := [], ping := 0, close := true },
         [Effect.send (.single (.untrack "k"))]
           ++ (if stOpenK.ping ≠ 0 then [Effect.clearPing stOpenK.ping] else [])
           ++ [Effect.closeSock 1000 "nothing else to track"], true)
     ∧ (stOpenK.unsubscribe "k" 0).1.sockClose
        = ({ (stOpenK.unsubscribe "k" 0).1 with socket := .nullS }, [])) :=
  ⟨rfl, rfl, claim6_last_key_teardown stOpenK "k" 0 rfl rfl⟩

/-- Claim C10: with no error callback supplied, every report site is
guarded on the optional error field, so the effect trace of the
open continuation and of the message handler is exactly the trace of the
instance with an error sink minus the error reports, and the resulting
state differs only in the sink field: the absence of a sink raises no
exception and changes no other behaviour. -/
theorem claim10_missing_sink_only_drops_reports (st : Veins) (auth : String)
    (ws : Bool) (fid : Nat) (msg : MessageStruct) :
    (({ st with hasError := false }).openResolve auth ws fid).1
        = { (({ st with hasError := true }).openResolve auth ws fid).1 with
            hasError := false }
    ∧ (({ st with hasError := false }).openResolve auth ws fid).2
        = ((({ st with hasError := true }).openResolve auth ws fid).2).filter
            (fun e => !e.isReport)
    ∧ ((({ st with hasError := false }).openResolve auth ws fid).2).filter
        Effect.isReport = []
    ∧ ({ st with hasError := false }).handleMsg msg
        = (({ st with hasError := true }).handleMsg msg).filter
            (fun e => !e.isReport)
    ∧ (({ st with hasError := false }).handleMsg msg).filter
        Effect.isReport = [] := by
  refine ⟨?_, ?_, ?_, ?_, ?_⟩
  · cases ws <;> by_cases hp : st.ping = 0 <;>
      simp [Veins.openResolve, hp]
  · cases ws <;> by_cases hp : st.ping = 0 <;>
      simp [Veins.openResolve, hp, Effect.isReport]
  · cases ws <;> by_cases hp : st.ping = 0 <;>
      simp [Veins.openResolve, hp, Effect.isReport]
  · cases msg with
    | mk d e k =>
      cases e with
      | none =>
        cases hl : recLookup st.keys k <;>
          simp [Veins.handleMsg, hl, Effect.isReport, List.filter_map,
            Function.comp_def]
      | some ce => simp [Veins.handleMsg, Effect.isReport]
  · cases msg with
    | mk d e k =>
      cases e with
      | none =>
        cases hl : recLookup st.keys k <;>
          simp [Veins.handleMsg, hl, Effect.isReport, List.filter_map,
            Function.comp_def]
      | some ce => simp [Veins.handleMsg, Effect.isReport]

/-- The state after the very first subscribe call on a fresh instance: the
key is recorded and the socket sentinel was set to `false` before `_open`
was triggered. -/
def afterFirstSub : Veins := (initVeins.subscribe "k" 0).1

/-- Claim C4 evaluated at its failing input: the first subscribe on a
fresh instance triggers the open sequence and leaves the socket sentinel
at `false`; when the auth promise then rejects, nothing runs (no error
report, no state change, because the source installs no rejection
handler), and a subsequent subscribe produces no effect at all — in
particular it does not trigger the open sequence again, since the socket
is `false` rather than `null`. -/
theorem claim4_auth_rejection_dead_end :
    (initVeins.subscribe "k" 0).2 = [Effect.triggerOpen]
    ∧ afterFirstSub.socket = .falseS
    ∧ afterFirstSub.openWith (.error ()) true 7 = (afterFirstSub, [])
    ∧ (afterFirstSub.subscribe "j" 1).2 = [] := by
  decide

/-- C3 scenario, step 2: the first open resolves with a token, sockets are
supported, and `setInterval` returns the fresh id 7. -/
def c3Open1 : Veins × List Effect := afterFirstSub.openResolve "tok" true 7

/-- C3 scenario, step 3: the server sends the literal text `authorized`. -/
def c3Authorized : Veins := (c3Open1.1.sockMessageText "authorized" none).1

/-- C3 scenario, step 4: the transport closes abnormally. -/
def c3Closed : Veins × List Effect := c3Authorized.sockClose

/-- C3 scenario, step 5: the scheduled reconnect fires and its auth
promise resolves; `setInterval` would have returned the fresh id 8 had it
been called. -/
def c3Reopen : Veins × List Effect := c3Closed.1.openResolve "tok2" true 8

/-- The ids of the keepalive intervals still running after a trace of
effects: interval-creation adds an id, interval-clearing removes it. -/
def pingTimers (effs : List Effect) : List Nat :=
  effs.foldl (fun acc e =>
    match e with
    | .startPing id _ => acc ++ [id]
    | .clearPing id => acc.filter (fun x => x ≠ id)
    | _ => acc) []

/-- The full effect trace of the C3 scenario. -/
def c3Trace : List Effect :=
  (initVeins.subscribe "k" 0).2 ++ c3Open1.2 ++ c3Closed.2 ++ c3Reopen.2

/-- Claim C3 evaluated at its failing input: the first open starts
keepalive interval 7; the abnormal close clears it but leaves the `ping`
field at the stale id 7, so the reconnect open creates no new interval;
after the reconnect no keepalive interval is running even though a key is
still registered and a socket is present. -/
theorem claim3_keepalive_lost_after_reconnect :
    Effect.startPing 7 300000 ∈ c3Open1.2
    ∧ Effect.clearPing 7 ∈ c3Closed.2
    ∧ c3Closed.1.ping = 7
    ∧ c3Reopen.2.filter Effect.isStartPing = []
    ∧ pingTimers c3Trace = []
    ∧ c3Reopen.1.keys = [("k", [0])]
    ∧ c3Reopen.1.socket.truthy = true := by
  decide

/-- Claim C9 counterexample: on the text frame `not json`, which is
neither `authorized` nor `pong` and does not parse, the handler result is
the exception escaping `_sockMessage` (the `JSON.parse` call is wrapped in
no try/catch), not a report through the error sink: the parse failure does
propagate past the router boundary. -/
theorem claim9_counterexample :
    stOpenK.sockMessageText "not json" none = (stOpenK, .error ()) := by
  rfl

/-- Claim C9 amended: for every text frame other than `authorized` and
`pong` on which `JSON.parse` throws, the message handler lets the
exception propagate (leaving the state unchanged and invoking no error
sink), rather than terminating it locally. -/
theorem claim9_parse_failure_escapes (st : Veins) (data : String)
    (h1 : data ≠ "authorized") (h2 : data ≠ "pong") :
    st.sockMessageText data none = (st, .error ()) := by
  simp [Veins.sockMessageText, h1, h2]

/-- Witness for the amended C9 on a fresh instance and the frame
`bad payload`. -/
theorem claim9_witness :
    ("bad payload" : String) ≠ "authorized"
    ∧ ("bad payload" : String) ≠ "pong"
    ∧ initVeins.sockMessageText "bad payload" none = (initVeins, .error ()) :=
  ⟨by decide, by decide,
    claim9_parse_failure_escapes initVeins "bad payload" (by decide) (by decide)⟩

/-- One registry-affecting public call. -/
inductive RegOp where
  | sub (key : String) (cb : Nat) : RegOp
  | unsub (key : String) (cb : Nat) : RegOp

/-- The state reached after one public call (effects discarded). -/
def applyOp (st : Veins) : RegOp → Veins
  | .sub k cb => (st.subscribe k cb).1
  | .unsub k cb => (st.unsubscribe k cb).1

/-- The state reached after a sequence of public calls. -/
def runOps (st : Veins) : List RegOp → Veins
  | [] => st
  | op :: rest => runOps (applyOp st op) rest

/-- The registry invariant: every entry of the key record carries a
nonempty callback list. -/
def keysWF (m : List (String × List Nat)) : Prop :=
  ∀ kv ∈ m, kv.2 ≠ []

theorem keysWF_recSet {m : List (String × List Nat)} {k : String}
    {v : List Nat} (h : keysWF m) (hv : v ≠ []) : keysWF (recSet m k v) := by
  intro kv hkv
  rcases List.mem_map.1 hkv with ⟨a, ham, hae⟩
  by_cases hak : a.1 = k
  · simp [hak] at hae
    rw [← hae]
    exact hv
  · simp [hak] at hae
    rw [← hae]
    exact h a ham

theorem keysWF_recDelete {m : List (String × List Nat)} {k : String}
    (h : keysWF m) : keysWF (recDelete m k) := by
  intro kv hkv
  exact h kv (List.mem_of_mem_filter hkv)

theorem keysWF_append {m : List (String × List Nat)} {k : String}
    {cb : Nat} (h : keysWF m) : keysWF (m ++ [(k, [cb])]) := by
  intro kv hkv
  rcases List.mem_append.1 hkv with h1 | h1
  · exact h kv h1
  · simp at h1
    rw [h1]
    simp

/-- The keys after a subscribe call, independent of the socket branch. -/
theorem subscribe_keys (st : Veins) (k : String) (cb : Nat) :
    (st.subscribe k cb).1.keys =
      match recLookup st.keys k with
      | none => st.keys ++ [(k, [cb])]
      | some l => recSet st.keys k (l ++ [cb]) := by
  cases hs : st.socket <;>
    cases hl : recLookup st.keys k <;>
      simp [Veins.subscribe, hs, hl] <;> split <;> rfl

theorem keysWF_subscribe (st : Veins) (k : String) (cb : Nat)
    (h : keysWF st.keys) : keysWF (st.subscribe k cb).1.keys := by
  rw [subscribe_keys]
  cases hl : recLookup st.keys k with
  | none => exact keysWF_append h
  | some l => exact keysWF_recSet h (by simp)

theorem keysWF_unsubscribe (st : Veins) (k : String) (cb : Nat)
    (h : keysWF st.keys) : keysWF (st.unsubscribe k cb).1.keys := by
  cases hl : recLookup st.keys k with
  | none => simpa [Veins.unsubscribe, hl] using h
  | some l =>
    by_cases hc : cb ∈ l
    · by_cases he : removeFirst l cb = []
      · by_cases hd : recDelete st.keys k = []
        · simp [Veins.unsubscribe, hl, hc, he, hd]
          intro kv hkv
          simp at hkv
        · simp [Veins.unsubscribe, hl, hc, he, hd]
          exact keysWF_recDelete h
      · simp [Veins.unsubscribe, hl, hc, he]
        exact keysWF_recSet h he
    · simpa [Veins.unsubscribe, hl, hc] using h

theorem keysWF_applyOp (st : Veins) (op : RegOp) (h : keysWF st.keys) :
    keysWF (applyOp st op).keys := by
  cases op with
  | sub k cb => exact keysWF_subscribe st k cb h
  | unsub k cb => exact keysWF_unsubscribe st k cb h

theorem keysWF_runOps (st : Veins) (ops : List RegOp) (h : keysWF st.keys) :
    keysWF (runOps st ops).keys := by
  induction ops generalizing st with
  | nil => exact h
  | cons op rest ih => exact ih (applyOp st op) (keysWF_applyOp st op h)

theorem recLookup_mem {m : List (String × List Nat)} {k : String}
    {l : List Nat} (h : recLookup m k = some l) : (k, l) ∈ m := by
  induction m with
  | nil => simp [recLookup] at h
  | cons kv rest ih =>
    by_cases hk : kv.1 = k
    · simp [recLookup, hk] at h
      have hkv : kv = (k, l) := by
        obtain ⟨a, b⟩ := kv
        simp_all
      rw [hkv]
      exact List.mem_cons_self _ _
    · simp [recLookup, hk] at h
      exact List.mem_cons_of_mem kv (ih h)

/-- Claim C7: after any sequence of subscribe and unsubscribe calls on a
fresh instance, a key is present in the registry only with a nonempty
callback list, so the key set equals exactly the set of keys with at
least one live callback. -/
theorem claim7_registry_key_iff_callbacks (ops : List RegOp) (k : String)
    (l : List Nat)
    (h : recLookup (runOps initVeins ops).keys k = some l) : l ≠ [] := by
  have hwf : keysWF (runOps initVeins ops).keys := by
    refine keysWF_runOps initVeins ops ?_
    intro kv hkv
    simp [initVeins] at hkv
  exact hwf (k, l) (recLookup_mem h)

/-- Witness for C7 on the call sequence subscribe k 0, subscribe k 1,
unsubscribe k 0. -/
theorem claim7_witness :
    recLookup
        (runOps initVeins
          [RegOp.sub "k" 0, RegOp.sub "k" 1, RegOp.unsub "k" 0]).keys "k"
      = some [1]
    ∧ ([1] : List Nat) ≠ [] :=
  ⟨by decide,
    claim7_registry_key_iff_callbacks
      [RegOp.sub "k" 0, RegOp.sub "k" 1, RegOp.unsub "k" 0] "k" [1]
      (by decide)⟩

end VeinsSpec
